import Mathlib

/-!
Verification development for the Fukai repository.

Part 1 models `backend/app/services/crawler.py` (`BiwaseCrawler`): the
retrying fetcher `_make_request_with_retry`, the soup-based link extractors,
`download_pdf`, `crawl_simple` and `crawl_full_pipeline`.  HTTP transport is
an oracle `World` mapping a URL and an attempt index to the outcome of that
attempt; parsed HTML is a `Soup` of anchors and embedded frames; the
filesystem is an association list from paths to byte lists; `datetime.now()`
is a monotone clock threaded through the crawler state.

Part 2 models `backend/app/shared/background_tasks.py`: the
`BackgroundTaskService` registry operations (`_check_task_limits`,
`create_task`, `_move_completed_task`, the wrapper coroutine's exit
sequence) and the `BackgroundTask` status state machine together with its
runner `_run_with_cancellation`, as a small-step transition system over the
interleavings the asyncio event loop permits.
-/

namespace Fukai

/-- One anchor tag of the parsed page: its class list and optional href. -/
structure Anchor where
  classes : List String
  href : Option String
  deriving DecidableEq, Repr

/-- One iframe tag of the parsed page: its optional src attribute. -/
structure Iframe where
  src : Option String
  deriving DecidableEq, Repr

/-- Parsed markup, as much of it as the extractors inspect: the anchors and
iframes found by BeautifulSoup.  The decode loop of `get_soup` tries several
encodings and ends in a lossy binary fallback, so parsing never fails and is
modelled as the fixed parse attached to the response. -/
structure Soup where
  anchors : List Anchor
  iframes : List Iframe
  deriving DecidableEq, Repr

/-- An HTTP response: its parse, its content-type header, and its streamed
body as the chunk sequence yielded by `iter_content`. -/
structure Response where
  soup : Soup
  content_type : Option String
  chunks : List (List Nat)
  deriving DecidableEq, Repr

/-- Outcome of one transport attempt for one URL: a successful response, a
`requests.exceptions.RequestException` (carrying the HTTP status of the
attached response when there is one, as used by the non-retryable check),
or any other exception. -/
inductive AttemptResult where
  | success (resp : Response)
  | reqError (msg : String) (status : Option Nat)
  | unexpected (msg : String)
  deriving DecidableEq, Repr

/-- The transport oracle: what the network does on the given attempt number
for the given URL. -/
def World : Type := String → Nat → AttemptResult

/-- Constructor knobs of `BiwaseCrawler.__init__`, with the source defaults. -/
structure CrawlConfig where
  base_url : String := "https://biwase.com.vn/tin-tuc/ban-tin-biwase"
  output_dir : String := "store_pdfs"
  max_retries : Nat := 3
  retry_delay : ℚ := 1
  request_timeout : Nat := 30
  rate_limit_delay : ℚ := 1
  user_agent : String := ""

/-- One entry of `stats['errors']`: `{url, error, timestamp}`. -/
structure ErrEntry where
  url : String
  error : String
  timestamp : Nat
  deriving DecidableEq, Repr

/-- The `self.stats` dictionary of the crawler. -/
structure CrawlStats where
  pages_processed : Nat := 0
  news_articles_found : Nat := 0
  pdfs_found : Nat := 0
  pdfs_downloaded : Nat := 0
  errors : List ErrEntry := []
  start_time : Option Nat := none
  end_time : Option Nat := none
  deriving DecidableEq, Repr

/-- Mutable state of one `BiwaseCrawler` instance plus its environment: the
stats record, the output filesystem (path to byte-list map), and a clock
standing for `datetime.now()`. -/
structure CrawlerState where
  stats : CrawlStats := {}
  fs : List (String × List Nat) := []
  clock : Nat := 0
  deriving DecidableEq, Repr

/-- Result of the `for attempt in range(max_retries + 1)` loop of
`_make_request_with_retry`: the response when some attempt succeeded, the
number of attempts executed, the backoff delays slept (in order), and the
last exception message. -/
structure RetryOutcome where
  response : Option Response
  attemptsMade : Nat
  delays : List ℚ
  lastError : Option String

/-- The non-retryable check of `_make_request_with_retry`: a
`RequestException` whose attached response has one of these statuses breaks
out of the retry loop. -/
def nonRetryableStatus : Option Nat → Bool
  | some s => s = 400 || s = 401 || s = 403 || s = 404 || s = 410
  | none => false

/-- An attempt outcome that the loop retries: a `RequestException` whose
status is not in the permanent list. -/
def isRetryableFailure : AttemptResult → Bool
  | .reqError _ status => !nonRetryableStatus status
  | _ => false

/-- The retry loop body.  `remaining` counts the loop iterations still
allowed, `attempt` is the current 0-based attempt index, `lastExc` the
exception recorded so far.  Before attempt index `a ≥ 1` the loop sleeps
`retry_delay * 2 ^ (a - 1)`. -/
def retryAux (att : Nat → AttemptResult) (retryDelay : ℚ) :
    Nat → Nat → Option String → RetryOutcome
  | 0, attempt, lastExc =>
      { response := none, attemptsMade := attempt, delays := [], lastError := lastExc }
  | remaining + 1, attempt, lastExc =>
      let ds : List ℚ := if attempt = 0 then [] else [retryDelay * 2 ^ (attempt - 1)]
      match att attempt with
      | .success r =>
          { response := some r, attemptsMade := attempt + 1, delays := ds, lastError := lastExc }
      | .reqError msg status =>
          if nonRetryableStatus status then
            { response := none, attemptsMade := attempt + 1, delays := ds, lastError := some msg }
          else
            let rest := retryAux att retryDelay remaining (attempt + 1) (some msg)
            { response := rest.response, attemptsMade := rest.attemptsMade,
              delays := ds ++ rest.delays, lastError := rest.lastError }
      | .unexpected msg =>
          { response := none, attemptsMade := attempt + 1, delays := ds, lastError := some msg }

/-- The whole retry loop of `_make_request_with_retry` for one URL:
`max_retries + 1` iterations starting at attempt index 0. -/
def retryRun (cfg : CrawlConfig) (world : World) (url : String) : RetryOutcome :=
  retryAux (world url) cfg.retry_delay (cfg.max_retries + 1) 0 none

/-- Python `str` applied to the possibly absent last exception. -/
def pyStr (o : Option String) : String := o.getD "None"

/-- `_make_request_with_retry`: runs the retry loop; when every attempt
failed it appends exactly one `{url, error, timestamp}` record to
`stats['errors']` and returns `None`; it never raises past this boundary. -/
def make_request_with_retry (cfg : CrawlConfig) (world : World) (st : CrawlerState)
    (url : String) : Option Response × CrawlerState :=
  let r := retryRun cfg world url
  match r.response with
  | some resp => (some resp, { st with clock := st.clock + 1 })
  | none =>
      (none,
       { st with
         stats := { st.stats with
           errors := st.stats.errors ++ [⟨url, pyStr r.lastError, st.clock⟩] },
         clock := st.clock + 1 })

/-- `get_soup`: fetch with retries and parse.  The encoding fallback chain
never raises, so a fetched response always yields its parse. -/
def get_soup (cfg : CrawlConfig) (world : World) (st : CrawlerState) (url : String) :
    Option Soup × CrawlerState :=
  let mres := make_request_with_retry cfg world st url
  match mres.1 with
  | some resp => (some resp.soup, mres.2)
  | none => (none, mres.2)

/-- Python `s.startswith(p)`, over the character lists (the byte-position
implementation of `String.startsWith` does not reduce definitionally). -/
def strStartsWith (s p : String) : Bool := p.data.isPrefixOf s.data

/-- Python `s.lower()`, over the character list. -/
def strLower (s : String) : String := String.mk (s.data.map Char.toLower)

/-- Python `s.split(sep)` for a one-character separator, over the character
list: splitting the empty string yields one empty field. -/
def splitOnCharList (sep : Char) : List Char → List (List Char)
  | [] => [[]]
  | c :: cs =>
      let r := splitOnCharList sep cs
      if c = sep then [] :: r
      else
        match r with
        | [] => [[c]]
        | g :: gs => (c :: g) :: gs

/-- Relative-href rewriting of `get_pagination_links` / `get_news_links`. -/
def fullUrl (href : String) : String :=
  if strStartsWith href "http" then href else "https://biwase.com.vn" ++ href

/-- Relative-src rewriting of `get_pdf_links`: strip leading slashes and
prepend the domain with a single slash. -/
def pdfFullUrl (src : String) : String :=
  if strStartsWith src "http" then src
  else "https://biwase.com.vn/" ++ String.mk (src.data.dropWhile (fun c => c = '/'))

/-- Anchors with the `ModulePager` class whose href is present and nonempty,
rewritten to absolute URLs. -/
def pagerLinks (soup : Soup) : List String :=
  (soup.anchors.filter (fun a => a.classes.contains "ModulePager")).filterMap
    (fun a => match a.href with
      | some h => if h = "" then none else some (fullUrl h)
      | none => none)

/-- Anchors with the `img-scale` class whose href is present and nonempty,
rewritten to absolute URLs. -/
def newsLinksOf (soup : Soup) : List String :=
  (soup.anchors.filter (fun a => a.classes.contains "img-scale")).filterMap
    (fun a => match a.href with
      | some h => if h = "" then none else some (fullUrl h)
      | none => none)

/-- Iframes whose src is present and nonempty, rewritten to absolute URLs. -/
def iframeLinks (soup : Soup) : List String :=
  soup.iframes.filterMap
    (fun f => match f.src with
      | some s => if s = "" then none else some (pdfFullUrl s)
      | none => none)

/-- `get_pagination_links`: fetch the base URL; on failure return `[]`
without touching `pages_processed`; otherwise extract the pager anchors and
record their count in `stats['pages_processed']`. -/
def get_pagination_links (cfg : CrawlConfig) (world : World) (st : CrawlerState) :
    List String × CrawlerState :=
  let sres := get_soup cfg world st cfg.base_url
  match sres.1 with
  | none => ([], sres.2)
  | some soup =>
      let pages := pagerLinks soup
      (pages,
       { sres.2 with stats := { sres.2.stats with pages_processed := pages.length } })

/-- `get_news_links`: fetch a pagination page and extract article anchors;
`[]` when the fetch failed. -/
def get_news_links (cfg : CrawlConfig) (world : World) (st : CrawlerState)
    (page_url : String) : List String × CrawlerState :=
  let sres := get_soup cfg world st page_url
  match sres.1 with
  | none => ([], sres.2)
  | some soup => (newsLinksOf soup, sres.2)

/-- `get_pdf_links`: fetch an article page and extract iframe sources; `[]`
when the fetch failed. -/
def get_pdf_links (cfg : CrawlConfig) (world : World) (st : CrawlerState)
    (news_url : String) : List String × CrawlerState :=
  let sres := get_soup cfg world st news_url
  match sres.1 with
  | none => ([], sres.2)
  | some soup => (iframeLinks soup, sres.2)

/-- Stand-in for Python's `hashlib.md5(url.encode()).hexdigest()`: a fixed
deterministic hex digest of the input string.  The development relies only
on it being a pure function of its argument. -/
def md5hex (s : String) : String :=
  let seed := s.data.foldl (fun acc c => (acc * 131 + c.toNat) % 4294967296) 5381
  let hexDigit (n : Nat) : Char :=
    if n < 10 then Char.ofNat (48 + n) else Char.ofNat (87 + n)
  String.mk ((List.range 32).map (fun i => hexDigit ((seed / 16 ^ (i % 8) + i) % 16)))

/-- The characters replaced by `_` in `_generate_safe_filename`. -/
def sanitizeChar (c : Char) : Char :=
  if c = '<' ∨ c = '>' ∨ c = ':' ∨ c = '"' ∨ c = '/' ∨ c = '\\' ∨ c = '|' ∨
     c = '?' ∨ c = '*' then '_' else c

/-- `_generate_safe_filename`: last URL path segment with the query string
stripped (`url.split('/')[-1].split('?')[0]`); a hash-derived name when
that segment is empty or has no dot; unsafe characters replaced; `.pdf`
extension forced (case-insensitively checked). -/
def generate_safe_filename (url : String) : String :=
  let seg := ((splitOnCharList '/' url.data).getLastD []).takeWhile
    (fun c => c ≠ '?')
  let f0 : List Char :=
    if seg = [] ∨ ¬ seg.contains '.' then
      "document_".data ++ ((md5hex url).data.take 8) ++ ".pdf".data
    else seg
  let f1 := f0.map sanitizeChar
  if (".pdf".data).isSuffixOf (f1.map Char.toLower) then String.mk f1
  else String.mk (f1 ++ ".pdf".data)

/-- Lookup in an association-list map (Python dict access). -/
def lookupA {α : Type} (m : List (String × α)) (k : String) : Option α :=
  (m.find? (fun e => e.1 = k)).map (fun e => e.2)

/-- Key update in an association-list map (Python dict assignment). -/
def insertA {α : Type} (m : List (String × α)) (k : String) (v : α) :
    List (String × α) :=
  m.filter (fun e => e.1 ≠ k) ++ [(k, v)]

/-- Key removal from an association-list map (Python `del` / `unlink`). -/
def eraseA {α : Type} (m : List (String × α)) (k : String) : List (String × α) :=
  m.filter (fun e => e.1 ≠ k)

/-- The result dictionary of `download_pdf`.  The failure dictionaries of
the source carry no `filename`/`content_type` keys, modelled as `none`. -/
structure DownloadResult where
  success : Bool
  url : String
  error : Option String
  file_path : Option String
  filename : Option String
  file_size : Nat
  content_type : Option String
  deriving DecidableEq, Repr

/-- The bytes written by the chunk loop of `download_pdf`: falsy (empty)
chunks are skipped, the rest are appended in order. -/
def streamedContent (chunks : List (List Nat)) : List Nat :=
  chunks.foldl (fun acc c => if c = [] then acc else acc ++ c) []

/-- `download_pdf`: fetch with retries (failure yields a failure outcome and
no file); stream the body to the generated path; a zero-byte body deletes
the partial file and yields a failure outcome; otherwise a success outcome
with path, filename, size and content type.  The content-type check only
logs and never rejects. -/
def download_pdf (cfg : CrawlConfig) (world : World) (st : CrawlerState)
    (pdf_url : String) : DownloadResult × CrawlerState :=
  let mres := make_request_with_retry cfg world st pdf_url
  match mres.1 with
  | none =>
      ({ success := false, url := pdf_url,
         error := some "Failed to download after retries",
         file_path := none, filename := none, file_size := 0,
         content_type := none }, mres.2)
  | some resp =>
      let ctype := strLower (resp.content_type.getD "")
      let filename := generate_safe_filename pdf_url
      let path := cfg.output_dir ++ "/" ++ filename
      let content := streamedContent resp.chunks
      if content.length = 0 then
        ({ success := false, url := pdf_url,
           error := some "Downloaded file is empty",
           file_path := none, filename := none, file_size := 0,
           content_type := none },
         { mres.2 with fs := eraseA mres.2.fs path })
      else
        ({ success := true, url := pdf_url, error := none,
           file_path := some path, filename := some filename,
           file_size := content.length, content_type := some ctype },
         { mres.2 with fs := insertA mres.2.fs path content })

/-- The result dictionary of `crawl_simple`. -/
structure CrawlResult where
  success : Bool
  crawl_type : String
  pages_found : Nat
  pdfs_found : Nat
  pdfs_downloaded : Nat
  pdf_urls : List String
  download_results : List DownloadResult
  output_dir : String
  stats : CrawlStats
  message : String
  error : Option String
  deriving DecidableEq, Repr

/-- The `all_news.extend(get_news_links(page))` loop over pagination pages
(the rate-limit sleep has no modelled effect). -/
def news_loop (cfg : CrawlConfig) (world : World) :
    List String → CrawlerState → List String × CrawlerState
  | [], st => ([], st)
  | p :: ps, st =>
      let a := get_news_links cfg world st p
      let b := news_loop cfg world ps a.2
      (a.1 ++ b.1, b.2)

/-- The `all_pdfs.extend(get_pdf_links(news_link))` loop over unique
articles. -/
def pdf_loop (cfg : CrawlConfig) (world : World) :
    List String → CrawlerState → List String × CrawlerState
  | [], st => ([], st)
  | n :: ns, st =>
      let a := get_pdf_links cfg world st n
      let b := pdf_loop cfg world ns a.2
      (a.1 ++ b.1, b.2)

/-- The download loop of `crawl_simple`: per unique document URL, attempt
the download, collect the outcome, and on success bump both the local
counter and `stats['pdfs_downloaded']`. -/
def download_loop (cfg : CrawlConfig) (world : World) :
    List String → CrawlerState → List DownloadResult × Nat × CrawlerState
  | [], st => ([], 0, st)
  | u :: us, st =>
      let a := download_pdf cfg world st u
      let st2 := if a.1.success then
                   { a.2 with stats := { a.2.stats with
                       pdfs_downloaded := a.2.stats.pdfs_downloaded + 1 } }
                 else a.2
      let b := download_loop cfg world us st2
      (a.1 :: b.1, (if a.1.success then 1 else 0) + b.2.1, b.2.2)

/-- Python `list(set(xs))`: duplicates removed; the iteration order of a set
is unspecified, and `List.dedup` is one faithful choice of order. -/
def dedupList (xs : List String) : List String := xs.dedup

/-- `crawl_simple`: the four stages (paginate, discover articles, discover
documents, download) chained over the crawler state, ending in a result
with `success:true` carrying a snapshot of the stats.  No modelled
operation raises, so the `except` branch that returns `success:false` on an
unanticipated exception is unreachable in the model. -/
def crawl_simple (cfg : CrawlConfig) (world : World) (st : CrawlerState) :
    CrawlResult × CrawlerState :=
  let st0 := { st with stats := { st.stats with start_time := some st.clock } }
  let pres := get_pagination_links cfg world st0
  let pages_found := pres.1.length
  let nres := news_loop cfg world pres.1 pres.2
  let unique_news := dedupList nres.1
  let st3 := { nres.2 with stats := { nres.2.stats with
                 news_articles_found := unique_news.length } }
  let fres := pdf_loop cfg world unique_news st3
  let unique_pdfs := dedupList fres.1
  let st5 := { fres.2 with stats := { fres.2.stats with
                 pdfs_found := unique_pdfs.length } }
  let dres := download_loop cfg world unique_pdfs st5
  let st7 := { dres.2.2 with stats := { dres.2.2.stats with
                 end_time := some dres.2.2.clock } }
  ({ success := true, crawl_type := "simple", pages_found := pages_found,
     pdfs_found := unique_pdfs.length, pdfs_downloaded := dres.2.1,
     pdf_urls := unique_pdfs, download_results := dres.1,
     output_dir := cfg.output_dir, stats := st7.stats,
     message := "Successfully crawled and downloaded " ++ toString dres.2.1
                ++ " PDFs from " ++ toString pages_found ++ " pages",
     error := none }, st7)

/-- The `document_data` dictionary synthesized by `crawl_full_pipeline` for
one successful download. -/
structure DocumentData where
  filename : String
  file_path : String
  file_size : Nat
  content_type : String
  source_url : String
  user_id : String
  status : String
  deriving DecidableEq, Repr

/-- One entry of `processing_tasks`. -/
structure ProcTask where
  task_id : String
  document_data : DocumentData
  status : String
  deriving DecidableEq, Repr

/-- The result dictionary of `crawl_full_pipeline`: the simple-crawl keys
plus `processing_tasks`. -/
structure FullResult where
  base : CrawlResult
  processing_tasks : List ProcTask
  deriving DecidableEq, Repr

/-- The deterministic processing-task id:
`crawl_process_` plus the first 8 hex digits of the md5 of the source URL. -/
def processing_task_id (source_url : String) : String :=
  "crawl_process_" ++ (md5hex source_url).take 8

/-- The processing descriptor built for one successful download. -/
def mkProcTask (uid : String) (d : DownloadResult) : ProcTask :=
  { task_id := processing_task_id d.url,
    document_data :=
      { filename := d.filename.getD "", file_path := d.file_path.getD "",
        file_size := d.file_size, content_type := d.content_type.getD "",
        source_url := d.url, user_id := uid, status := "pending_processing" },
    status := "queued" }

/-- `crawl_full_pipeline`: run `crawl_simple`; pass a failure through
unchanged; when a background-task service was provided, synthesize one
processing descriptor per successful download; return the simple result
with `crawl_type`, `processing_tasks` and `message` overridden (the
embedded stats snapshot is the one taken by `crawl_simple`). -/
def crawl_full_pipeline (cfg : CrawlConfig) (world : World) (hasService : Bool)
    (uid : String) (st : CrawlerState) : FullResult × CrawlerState :=
  let stA := { st with stats := { st.stats with start_time := some st.clock } }
  let cres := crawl_simple cfg world stA
  if cres.1.success = false then
    ({ base := cres.1, processing_tasks := [] }, cres.2)
  else
    let tasks := if hasService then
                   (cres.1.download_results.filter (fun d => d.success)).map
                     (mkProcTask uid)
                 else []
    let st2 := { cres.2 with stats := { cres.2.stats with
                   end_time := some cres.2.clock } }
    ({ base := { cres.1 with
                 crawl_type := "full_pipeline",
                 message := "Successfully crawled, downloaded "
                   ++ toString cres.1.pdfs_downloaded ++ " PDFs, and queued "
                   ++ toString tasks.length ++ " for processing" },
       processing_tasks := tasks }, st2)

/-! ### Part 2: background task service (`background_tasks.py`) -/

/-- `TaskStatus`: the five task states. -/
inductive TaskStatus where
  | pending
  | running
  | completed
  | failed
  | cancelled
  deriving DecidableEq, Repr

/-- A status is terminal when it is completed, failed or cancelled. -/
def TaskStatus.isTerminal : TaskStatus → Bool
  | .completed | .failed | .cancelled => true
  | _ => false

/-- The fields of one `BackgroundTask` record that the service operations
read or write (progress/metadata/timestamps carry no claim content and the
timestamps are kept as clock values elsewhere; `cancelRequested` is the
`_cancel_event` flag). -/
structure TaskRec where
  task_id : String
  task_type : String
  user_id : String
  status : TaskStatus
  progress : Nat
  result : Option String
  error : Option String
  cancelRequested : Bool
  deriving DecidableEq, Repr

/-- The two key-unique stores of `BackgroundTaskService` plus its limits. -/
structure ServiceState where
  active_tasks : List (String × TaskRec) := []
  completed_tasks : List (String × TaskRec) := []
  max_completed_tasks : Nat := 100
  max_active_tasks : Nat := 50
  deriving DecidableEq, Repr

/-- `_check_task_limits`: `False` (reject) when the active count has
reached `max_active_tasks`. -/
def check_task_limits (s : ServiceState) : Bool :=
  if s.max_active_tasks ≤ s.active_tasks.length then false else true

/-- Update the shared `BackgroundTask` object wherever its record lives
(in Python both dicts reference the same object). -/
def updateTask (s : ServiceState) (tid : String) (f : TaskRec → TaskRec) :
    ServiceState :=
  { s with
    active_tasks := s.active_tasks.map (fun e => if e.1 = tid then (e.1, f e.2) else e),
    completed_tasks :=
      s.completed_tasks.map (fun e => if e.1 = tid then (e.1, f e.2) else e) }

/-- `_move_completed_task`: move the record from `active_tasks` to
`completed_tasks`, but only when its status is already terminal.  (The
opportunistic cleanup it may schedule runs asynchronously later and only
shrinks `completed_tasks`; it is not part of this step.) -/
def move_completed_task (s : ServiceState) (tid : String) : ServiceState :=
  match lookupA s.active_tasks tid with
  | none => s
  | some t =>
      if t.status.isTerminal then
        { s with completed_tasks := insertA s.completed_tasks tid t,
                 active_tasks := eraseA s.active_tasks tid }
      else s

/-- `create_task`: reject (return `None`, state unchanged) when
`_check_task_limits` fails; otherwise build the id from the task type and
the random `uuid4().hex[:8]` suffix, insert the `pending` record into
`active_tasks`, and synchronously `start()` it, which sets the status to
`running`. -/
def create_task (s : ServiceState) (task_type user_id uuidHex : String) :
    Option String × ServiceState :=
  if check_task_limits s = false then (none, s)
  else
    let task_id := task_type ++ "_" ++ uuidHex.take 8
    let task : TaskRec :=
      { task_id := task_id, task_type := task_type, user_id := user_id,
        status := .pending, progress := 0, result := none, error := none,
        cancelRequested := false }
    let s1 := { s with active_tasks := insertA s.active_tasks task_id task }
    let s2 := updateTask s1 task_id (fun t => { t with status := .running })
    (some task_id, s2)

/-- The event sequence the loop executes when the wrapped work returns
normally and nobody cancelled: first the wrapper's `finally` calls
`_move_completed_task` (at that moment the status set by `start()` is still
`running`); only afterwards does `_run_with_cancellation` resume from
`asyncio.wait`, store the result and set the status to `completed`. -/
def work_returns (s : ServiceState) (tid : String) (res : String) : ServiceState :=
  let s1 := move_completed_task s tid
  updateTask s1 tid (fun t => { t with status := .completed, result := some res })

/-- A fresh service with the source's limits and empty stores. -/
def emptyService : ServiceState := {}

/-- A service whose capacity is 1 and whose single active slot is taken. -/
def fullService : ServiceState :=
  { active_tasks := [("crawl_busy",
      { task_id := "crawl_busy", task_type := "crawl", user_id := "u0",
        status := .running, progress := 0, result := none, error := none,
        cancelRequested := false })],
    completed_tasks := [], max_active_tasks := 1 }

/-! ### The `BackgroundTask` status machine under the event loop

One task together with its `_run_with_cancellation` runner, as a
small-step system over the interleavings the single-threaded event loop
permits.  `create_task` inserts the record as `pending` and calls `start()`
two statements later with no suspension point in between, so the initial
observable state has status `running`, the runner parked at `asyncio.wait`,
the work not yet exited and no cancellation requested. -/

/-- How the wrapped work exits when it does: by returning or by raising. -/
inductive WorkOutcome where
  | ok
  | err
  deriving DecidableEq, Repr

/-- Where the `_run_with_cancellation` coroutine stands: parked at
`await asyncio.wait(...)`, or finished. -/
inductive RunLoc where
  | waiting
  | finished
  deriving DecidableEq, Repr

/-- Combined state of one task: its status, the `_cancel_event` flag, a
pending `Task.cancel()` on the runner, the runner's location, and the exit
of the wrapped work once it has exited. -/
structure TaskM where
  status : TaskStatus
  cancelEvent : Bool
  runCancelRequested : Bool
  runLoc : RunLoc
  workExit : Option WorkOutcome
  deriving DecidableEq, Repr

/-- The state right after `create_task`: `start()` has run. -/
def initTask : TaskM :=
  { status := .running, cancelEvent := false, runCancelRequested := false,
    runLoc := .waiting, workExit := none }

/-- `BackgroundTask.cancel()`: when the status is pending or running, set
`_cancel_event`, request cancellation of the runner task if it is not done,
and set the status to `cancelled`; a no-op once terminal. -/
def stepCancel (m : TaskM) : TaskM :=
  if m.status = .pending ∨ m.status = .running then
    { m with cancelEvent := true,
             runCancelRequested := m.runCancelRequested || decide (m.runLoc ≠ .finished),
             status := .cancelled }
  else m

/-- The runner resuming from `await asyncio.wait(...)`.  A pending
`Task.cancel()` delivers `CancelledError` at this resumption, whose handler
sets `cancelled`.  Otherwise, if the cancel event fired, `cancel_coro` is
among the done set and the status becomes `cancelled`; otherwise the work's
own exit decides `completed` versus `failed` (an exception from the work is
captured, never re-thrown). -/
def resumeResult (m : TaskM) : TaskM :=
  if m.runCancelRequested then
    { m with runLoc := .finished, status := .cancelled }
  else if m.cancelEvent then
    { m with runLoc := .finished, status := .cancelled }
  else
    match m.workExit with
    | some .ok => { m with runLoc := .finished, status := .completed }
    | some .err => { m with runLoc := .finished, status := .failed }
    | none => m

/-- The interleaving steps the event loop permits: an external `cancel()`
call at any suspension point; the wrapped work exiting (also after the
runner was cancelled away, since the inner task keeps running then); and
the runner resuming once the work has exited or cancellation was
signalled. -/
inductive Step : TaskM → TaskM → Prop where
  | cancel (m : TaskM) : Step m (stepCancel m)
  | workExits (m : TaskM) (o : WorkOutcome) (h : m.workExit = none) :
      Step m { m with workExit := some o }
  | runResume (m : TaskM) (hloc : m.runLoc = .waiting)
      (henabled : m.workExit ≠ none ∨ m.cancelEvent = true) :
      Step m (resumeResult m)

/-- States reachable from the post-`start()` state. -/
inductive Reachable : TaskM → Prop where
  | init : Reachable initTask
  | next {m m' : TaskM} : Reachable m → Step m m' → Reachable m'

/-! ### Concrete worlds and states used by witnesses and counterexamples -/

/-- A transport on which every attempt fails with a retryable
connection-level error (no attached response). -/
def alwaysFailWorld : World := fun _ _ => .reqError "connection refused" none

/-- A transport on which every attempt yields an HTTP 404 error response. -/
def world404 : World := fun _ _ => .reqError "404 Client Error" (some 404)

/-- A transport failing with a retryable connection error on attempt 0 and
with an HTTP 403 error response from attempt 1 on. -/
def world403Later : World := fun _ i =>
  if i = 0 then .reqError "connection reset" none
  else .reqError "403 Client Error" (some 403)

/-- A soup with no anchors and no iframes. -/
def emptySoup : Soup := { anchors := [], iframes := [] }

/-- A transport that always succeeds with an empty streamed body. -/
def emptyBodyWorld : World := fun _ _ =>
  .success { soup := emptySoup, content_type := some "application/pdf",
             chunks := [[], []] }

/-- A four-page demo site: the base URL lists one pagination page, which
lists one article, which embeds one document, which downloads as one
nonempty chunk. -/
def demoWorld : World := fun url _ =>
  if url = "https://biwase.com.vn/tin-tuc/ban-tin-biwase" then
    .success { soup := { anchors := [{ classes := ["ModulePager"],
                                       href := some "/page1" }],
                         iframes := [] },
               content_type := none, chunks := [] }
  else if url = "https://biwase.com.vn/page1" then
    .success { soup := { anchors := [{ classes := ["img-scale"],
                                       href := some "/news1" }],
                         iframes := [] },
               content_type := none, chunks := [] }
  else if url = "https://biwase.com.vn/news1" then
    .success { soup := { anchors := [], iframes := [{ src := some "/doc1.pdf" }] },
               content_type := none, chunks := [] }
  else if url = "https://biwase.com.vn/doc1.pdf" then
    .success { soup := emptySoup, content_type := some "application/pdf",
               chunks := [[37, 80, 68, 70]] }
  else .unexpected "no route"

/-- A fresh crawler state. -/
def initCrawler : CrawlerState := {}

/-- Inductive invariant: a `cancelled` status while the runner is still
parked implies the runner carries a pending cancellation, and a
`completed`/`failed` status can only exist with the runner finished. -/
def TaskInv (m : TaskM) : Prop :=
  (m.status = .cancelled → m.runLoc = .waiting → m.runCancelRequested = true) ∧
  ((m.status = .completed ∨ m.status = .failed) → m.runLoc = .finished)

theorem taskInv_init : TaskInv initTask := by
  constructor
  · intro h
    simp [initTask] at h
  · intro h
    simp [initTask] at h

theorem taskInv_step {m m' : TaskM} (hInv : TaskInv m) (hs : Step m m') :
    TaskInv m' := by
  obtain ⟨st, ce, rc, rl, we⟩ := m
  cases hs with
  | cancel =>
      cases st <;> cases rl <;> simp_all [stepCancel, TaskInv]
  | workExits o h =>
      exact hInv
  | runResume hloc henabled =>
      cases st <;> cases rl <;> cases rc <;> cases ce <;>
        rcases we with _ | ⟨_ | _⟩ <;>
        simp_all [resumeResult, TaskInv]

theorem taskInv_reachable {m : TaskM} (h : Reachable m) : TaskInv m := by
  induction h with
  | init => exact taskInv_init
  | next _ hs ih => exact taskInv_step ih hs

/-! ### Retry-loop lemmas -/

theorem retryAux_allFail (att : Nat → AttemptResult) (d : ℚ)
    (hfail : ∀ i, isRetryableFailure (att i) = true) :
    ∀ remaining attempt exc,
      (retryAux att d remaining attempt exc).response = none ∧
      (retryAux att d remaining attempt exc).attemptsMade = attempt + remaining := by
  intro remaining
  induction remaining with
  | zero =>
      intro attempt exc
      simp [retryAux]
  | succ n ih =>
      intro attempt exc
      have h := hfail attempt
      cases hatt : att attempt with
      | success r =>
          rw [hatt] at h
          simp [isRetryableFailure] at h
      | reqError msg status =>
          rw [hatt] at h
          simp only [isRetryableFailure, Bool.not_eq_true'] at h
          have hrec := ih (attempt + 1) (some msg)
          simp only [retryAux, hatt, h, Bool.false_eq_true, if_false]
          refine ⟨hrec.1, ?_⟩
          rw [hrec.2]
          omega
      | unexpected msg =>
          rw [hatt] at h
          simp [isRetryableFailure] at h

theorem retryAux_shortcircuit (att : Nat → AttemptResult) (d : ℚ) (msg : String)
    (s : Nat) (hs : nonRetryableStatus (some s) = true) :
    ∀ remaining attempt exc j, attempt ≤ j → j < attempt + remaining →
      (∀ i, attempt ≤ i → i < j → isRetryableFailure (att i) = true) →
      att j = .reqError msg (some s) →
      (retryAux att d remaining attempt exc).response = none ∧
      (retryAux att d remaining attempt exc).attemptsMade = j + 1 ∧
      (retryAux att d remaining attempt exc).lastError = some msg := by
  intro remaining
  induction remaining with
  | zero =>
      intro attempt exc j h1 h2 _ _
      omega
  | succ n ih =>
      intro attempt exc j h1 h2 hprev hcur
      by_cases heq : attempt = j
      · subst heq
        simp [retryAux, hcur, hs]
      · have hlt : attempt < j := by omega
        have hr := hprev attempt (Nat.le_refl attempt) hlt
        cases hatt : att attempt with
        | success r =>
            rw [hatt] at hr
            simp [isRetryableFailure] at hr
        | unexpected m2 =>
            rw [hatt] at hr
            simp [isRetryableFailure] at hr
        | reqError m2 st2 =>
            rw [hatt] at hr
            simp only [isRetryableFailure, Bool.not_eq_true'] at hr
            have hrec := ih (attempt + 1) (some m2) j (by omega) (by omega)
              (fun i hi1 hi2 => hprev i (by omega) hi2) hcur
            simp only [retryAux, hatt, hr, Bool.false_eq_true, if_false]
            exact hrec

theorem retryAux_attempt_le (att : Nat → AttemptResult) (d : ℚ) :
    ∀ remaining attempt exc,
      attempt ≤ (retryAux att d remaining attempt exc).attemptsMade := by
  intro remaining
  induction remaining with
  | zero =>
      intro attempt exc
      simp [retryAux]
  | succ n ih =>
      intro attempt exc
      cases hatt : att attempt with
      | success r =>
          simp only [retryAux, hatt]
          omega
      | reqError msg status =>
          simp only [retryAux, hatt]
          by_cases h : nonRetryableStatus status = true
          · rw [if_pos h]
            exact Nat.le_succ attempt
          · rw [if_neg h]
            exact Nat.le_of_succ_le (ih (attempt + 1) (some msg))
      | unexpected msg =>
          simp only [retryAux, hatt]
          omega

theorem retryAux_delays (att : Nat → AttemptResult) (d : ℚ) :
    ∀ remaining attempt exc, 1 ≤ attempt →
      (retryAux att d remaining attempt exc).delays =
        (List.range' attempt
          ((retryAux att d remaining attempt exc).attemptsMade - attempt)).map
          (fun a => d * 2 ^ (a - 1)) := by
  intro remaining
  induction remaining with
  | zero =>
      intro attempt exc h1
      simp [retryAux]
  | succ n ih =>
      intro attempt exc h1
      have hne : ¬ (attempt = 0) := by omega
      cases hatt : att attempt with
      | success r =>
          simp only [retryAux, hatt, hne, if_false, Nat.add_sub_cancel_left]
          simp [List.range'_one]
      | reqError msg status =>
          simp only [retryAux, hatt, hne, if_false]
          by_cases h : nonRetryableStatus status = true
          · rw [if_pos h]
            simp only [Nat.add_sub_cancel_left]
            simp [List.range'_one]
          · rw [if_neg h]
            have hle := retryAux_attempt_le att d n (attempt + 1) (some msg)
            have hrec := ih (attempt + 1) (some msg) (by omega)
            have hsplit :
                (retryAux att d n (attempt + 1) (some msg)).attemptsMade - attempt =
                ((retryAux att d n (attempt + 1) (some msg)).attemptsMade
                  - (attempt + 1)) + 1 := by omega
            rw [hsplit, List.range'_succ, List.map_cons, hrec]
            simp
      | unexpected msg =>
          simp only [retryAux, hatt, hne, if_false, Nat.add_sub_cancel_left]
          simp [List.range'_one]

theorem retryRun_delays (cfg : CrawlConfig) (world : World) (url : String) :
    (retryRun cfg world url).delays =
      (List.range' 1 ((retryRun cfg world url).attemptsMade - 1)).map
        (fun a => cfg.retry_delay * 2 ^ (a - 1)) := by
  unfold retryRun
  cases hatt : world url 0 with
  | success r =>
      simp [retryAux, hatt]
  | reqError msg status =>
      by_cases h : nonRetryableStatus status = true
      · simp [retryAux, hatt, h]
      · simp only [retryAux, hatt, if_neg h, if_pos rfl]
        have hrec := retryAux_delays (world url) cfg.retry_delay cfg.max_retries 1
          (some msg) (Nat.le_refl 1)
        simpa using hrec
  | unexpected msg =>
      simp [retryAux, hatt]

/-! ### Claim theorems: the retrying fetcher -/

/-- C4.  For every URL and configured `max_retries = N`, if the transport
fails on every attempt with a retryable error, then
`_make_request_with_retry` performs exactly `N + 1` attempts, appends
exactly one `{url, error, timestamp}` entry to `stats['errors']`, and
returns `None` rather than raising. -/
theorem retry_exhaustion (cfg : CrawlConfig) (world : World) (st : CrawlerState)
    (url : String) (hfail : ∀ i, isRetryableFailure (world url i) = true) :
    (retryRun cfg world url).attemptsMade = cfg.max_retries + 1 ∧
    (make_request_with_retry cfg world st url).1 = none ∧
    ∃ e : ErrEntry,
      (make_request_with_retry cfg world st url).2.stats.errors =
        st.stats.errors ++ [e] ∧ e.url = url ∧ e.timestamp = st.clock := by
  have h := retryAux_allFail (world url) cfg.retry_delay hfail (cfg.max_retries + 1) 0 none
  have hr : (retryRun cfg world url).response = none := h.1
  refine ⟨by simpa [retryRun] using h.2, ?_, ?_⟩
  · simp only [make_request_with_retry, hr]
  · refine ⟨⟨url, pyStr (retryRun cfg world url).lastError, st.clock⟩, ?_, rfl, rfl⟩
    simp only [make_request_with_retry, hr]

theorem retry_exhaustion_witness :
    (retryRun {} alwaysFailWorld "u").attemptsMade = ({} : CrawlConfig).max_retries + 1 ∧
    (make_request_with_retry {} alwaysFailWorld initCrawler "u").1 = none ∧
    ∃ e : ErrEntry,
      (make_request_with_retry {} alwaysFailWorld initCrawler "u").2.stats.errors =
        initCrawler.stats.errors ++ [e] ∧ e.url = "u" ∧ e.timestamp = initCrawler.clock :=
  retry_exhaustion {} alwaysFailWorld initCrawler "u" (fun _ => rfl)

/-- C5.  A `RequestException` carrying a status in `{400,401,403,404,410}`
stops retrying immediately after the attempt on which it occurs, whatever
`max_retries` is: if attempts before `j` fail retryably and attempt `j`
yields such a status, exactly `j + 1` attempts happen, no response is
returned, and the failure is recorded by the same single error-append as an
exhausted retry.  At `j = 0` this is the single-404, one-attempt case. -/
theorem non_retryable_shortcircuit (cfg : CrawlConfig) (world : World)
    (st : CrawlerState) (url msg : String) (s j : Nat)
    (hstat : s ∈ [400, 401, 403, 404, 410])
    (hj : j ≤ cfg.max_retries)
    (hprev : ∀ i, i < j → isRetryableFailure (world url i) = true)
    (hcur : world url j = .reqError msg (some s)) :
    (retryRun cfg world url).attemptsMade = j + 1 ∧
    (retryRun cfg world url).response = none ∧
    (make_request_with_retry cfg world st url).1 = none ∧
    (make_request_with_retry cfg world st url).2.stats.errors =
      st.stats.errors ++ [⟨url, msg, st.clock⟩] := by
  have hs : nonRetryableStatus (some s) = true := by
    fin_cases hstat <;> rfl
  have h := retryAux_shortcircuit (world url) cfg.retry_delay msg s hs
    (cfg.max_retries + 1) 0 none j (Nat.zero_le j) (by omega)
    (fun i _ hi2 => hprev i hi2) hcur
  have hr : (retryRun cfg world url).response = none := h.1
  have hl : (retryRun cfg world url).lastError = some msg := h.2.2
  refine ⟨by simpa [retryRun] using h.2.1, hr, ?_, ?_⟩
  · simp only [make_request_with_retry, hr]
  · simp only [make_request_with_retry, hr]
    simp [hl, pyStr]

theorem non_retryable_shortcircuit_witness :
    ((retryRun {} world404 "u").attemptsMade = 1 ∧
     (retryRun {} world404 "u").response = none ∧
     (make_request_with_retry {} world404 initCrawler "u").1 = none ∧
     (make_request_with_retry {} world404 initCrawler "u").2.stats.errors =
       initCrawler.stats.errors ++
         [⟨"u", "404 Client Error", initCrawler.clock⟩]) ∧
    ((retryRun {} world403Later "u").attemptsMade = 2 ∧
     (retryRun {} world403Later "u").response = none ∧
     (make_request_with_retry {} world403Later initCrawler "u").1 = none ∧
     (make_request_with_retry {} world403Later initCrawler "u").2.stats.errors =
       initCrawler.stats.errors ++
         [⟨"u", "403 Client Error", initCrawler.clock⟩]) :=
  ⟨non_retryable_shortcircuit {} world404 initCrawler "u" "404 Client Error" 404 0
      (by decide) (by decide) (fun i hi => absurd hi (Nat.not_lt_zero i)) rfl,
   non_retryable_shortcircuit {} world403Later initCrawler "u" "403 Client Error"
      403 1 (by decide) (by decide)
      (by
        intro i hi
        have h0 : i = 0 := by omega
        subst h0
        rfl)
      rfl⟩

/-- C6.  In every run of the retry loop there is no delay before attempt 1
(the delay list has one entry per later attempt), and the delay slept
before attempt `k ≥ 2` is `retry_delay * 2 ^ (k - 2)`. -/
theorem backoff_schedule (cfg : CrawlConfig) (world : World) (url : String)
    (k : Nat) (h2 : 2 ≤ k) (hk : k ≤ (retryRun cfg world url).attemptsMade) :
    (retryRun cfg world url).delays.length = (retryRun cfg world url).attemptsMade - 1 ∧
    (retryRun cfg world url).delays[k - 2]? = some (cfg.retry_delay * 2 ^ (k - 2)) := by
  have hd := retryRun_delays cfg world url
  constructor
  · rw [hd, List.length_map, List.length_range']
  · rw [hd]
    have hlt : k - 2 < (retryRun cfg world url).attemptsMade - 1 := by omega
    rw [List.getElem?_map, List.getElem?_range']
    · simp only [Option.map_some']
      have he : 1 + 1 * (k - 2) - 1 = k - 2 := by omega
      rw [he]
    · exact hlt

theorem backoff_schedule_witness :
    (retryRun {} alwaysFailWorld "u").delays.length =
      (retryRun {} alwaysFailWorld "u").attemptsMade - 1 ∧
    (retryRun {} alwaysFailWorld "u").delays[4 - 2]? =
      some (({} : CrawlConfig).retry_delay * 2 ^ (4 - 2)) :=
  backoff_schedule {} alwaysFailWorld "u" 4 (by decide)
    (by
      have h := retryAux_allFail (alwaysFailWorld "u") ({} : CrawlConfig).retry_delay
        (fun _ => rfl) (({} : CrawlConfig).max_retries + 1) 0 none
      simpa [retryRun] using h.2.ge)

/-! ### Claim theorems: crawl pipeline -/

/-- C3.  When fetching the base URL fails (all retries exhausted), the run
still ends in `success:true` with zero counts and empty lists; the model's
sub-operations never raise, so no other outcome arises from a failed base
fetch. -/
theorem crawl_zero_on_base_failure (cfg : CrawlConfig) (world : World)
    (st : CrawlerState)
    (hbase : (retryRun cfg world cfg.base_url).response = none) :
    (crawl_simple cfg world st).1.success = true ∧
    (crawl_simple cfg world st).1.pages_found = 0 ∧
    (crawl_simple cfg world st).1.pdfs_found = 0 ∧
    (crawl_simple cfg world st).1.pdfs_downloaded = 0 ∧
    (crawl_simple cfg world st).1.pdf_urls = [] ∧
    (crawl_simple cfg world st).1.download_results = [] := by
  have hp : ∀ stx : CrawlerState, (get_pagination_links cfg world stx).1 = [] := by
    intro stx
    simp [get_pagination_links, get_soup, make_request_with_retry, hbase]
  simp [crawl_simple, hp, news_loop, pdf_loop, download_loop, dedupList]

theorem crawl_zero_on_base_failure_witness :
    (crawl_simple {} alwaysFailWorld initCrawler).1.success = true ∧
    (crawl_simple {} alwaysFailWorld initCrawler).1.pages_found = 0 ∧
    (crawl_simple {} alwaysFailWorld initCrawler).1.pdfs_found = 0 ∧
    (crawl_simple {} alwaysFailWorld initCrawler).1.pdfs_downloaded = 0 ∧
    (crawl_simple {} alwaysFailWorld initCrawler).1.pdf_urls = [] ∧
    (crawl_simple {} alwaysFailWorld initCrawler).1.download_results = [] :=
  crawl_zero_on_base_failure {} alwaysFailWorld initCrawler rfl

theorem lookupA_eraseA {α : Type} (m : List (String × α)) (k : String) :
    lookupA (eraseA m k) k = none := by
  simp [lookupA, eraseA, List.find?_eq_none]

/-- C8.  A download whose streamed body is empty is reported as a failure
(`success:false`, no path, size 0) and the partial file is removed, so the
generated path is absent from the filesystem afterwards. -/
theorem zero_byte_download (cfg : CrawlConfig) (world : World) (st : CrawlerState)
    (url : String) (resp : Response)
    (hresp : (retryRun cfg world url).response = some resp)
    (hempty : streamedContent resp.chunks = []) :
    (download_pdf cfg world st url).1.success = false ∧
    (download_pdf cfg world st url).1.file_path = none ∧
    (download_pdf cfg world st url).1.file_size = 0 ∧
    lookupA (download_pdf cfg world st url).2.fs
      (cfg.output_dir ++ "/" ++ generate_safe_filename url) = none := by
  have hm : make_request_with_retry cfg world st url =
      (some resp, { st with clock := st.clock + 1 }) := by
    simp [make_request_with_retry, hresp]
  simp [download_pdf, hm, hempty, lookupA_eraseA]

theorem zero_byte_download_witness :
    (download_pdf {} emptyBodyWorld initCrawler "https://x/doc.pdf").1.success = false ∧
    (download_pdf {} emptyBodyWorld initCrawler "https://x/doc.pdf").1.file_path = none ∧
    (download_pdf {} emptyBodyWorld initCrawler "https://x/doc.pdf").1.file_size = 0 ∧
    lookupA (download_pdf {} emptyBodyWorld initCrawler "https://x/doc.pdf").2.fs
      (({} : CrawlConfig).output_dir ++ "/" ++
        generate_safe_filename "https://x/doc.pdf") = none :=
  zero_byte_download {} emptyBodyWorld initCrawler "https://x/doc.pdf"
    { soup := emptySoup, content_type := some "application/pdf", chunks := [[], []] }
    rfl rfl

/-! ### Frame lemmas: how one crawl step evolves the stats record -/

/-- Between two crawler states, the errors list has only been appended to
and the pdfs_downloaded counter has grown by exactly `n`. -/
def ErrsExtend (s t : CrawlerState) (n : Nat) : Prop :=
  (∃ tl, t.stats.errors = s.stats.errors ++ tl) ∧
  t.stats.pdfs_downloaded = s.stats.pdfs_downloaded + n

theorem errsExtend_refl (s : CrawlerState) : ErrsExtend s s 0 :=
  ⟨⟨[], by simp⟩, by simp⟩

theorem errsExtend_comp {s t u : CrawlerState} {n m : Nat}
    (h1 : ErrsExtend s t n) (h2 : ErrsExtend t u m) : ErrsExtend s u (n + m) := by
  obtain ⟨⟨tl1, ht1⟩, hd1⟩ := h1
  obtain ⟨⟨tl2, ht2⟩, hd2⟩ := h2
  refine ⟨⟨tl1 ++ tl2, ?_⟩, ?_⟩
  · rw [ht2, ht1, List.append_assoc]
  · rw [hd2, hd1]
    omega

theorem errsExtend_of_eq {s t : CrawlerState}
    (he : t.stats.errors = s.stats.errors)
    (hd : t.stats.pdfs_downloaded = s.stats.pdfs_downloaded) :
    ErrsExtend s t 0 :=
  ⟨⟨[], by simp [he]⟩, by simp [hd]⟩

theorem errsExtend_mrwr (cfg : CrawlConfig) (world : World) (st : CrawlerState)
    (url : String) : ErrsExtend st (make_request_with_retry cfg world st url).2 0 := by
  cases h : (retryRun cfg world url).response with
  | some r =>
      simp only [make_request_with_retry, h]
      exact ⟨⟨[], by simp⟩, by simp⟩
  | none =>
      simp only [make_request_with_retry, h]
      exact ⟨⟨_, rfl⟩, by simp⟩

theorem get_soup_state (cfg : CrawlConfig) (world : World) (st : CrawlerState)
    (url : String) :
    (get_soup cfg world st url).2 = (make_request_with_retry cfg world st url).2 := by
  unfold get_soup
  cases h : (make_request_with_retry cfg world st url).1 <;> simp [h]

theorem errsExtend_get_soup (cfg : CrawlConfig) (world : World) (st : CrawlerState)
    (url : String) : ErrsExtend st (get_soup cfg world st url).2 0 := by
  rw [get_soup_state]
  exact errsExtend_mrwr cfg world st url

theorem errsExtend_get_pagination (cfg : CrawlConfig) (world : World)
    (st : CrawlerState) : ErrsExtend st (get_pagination_links cfg world st).2 0 := by
  have h0 := errsExtend_get_soup cfg world st cfg.base_url
  unfold get_pagination_links
  cases h : (get_soup cfg world st cfg.base_url).1 with
  | none => simpa [h] using h0
  | some soup =>
      simp only [h]
      refine errsExtend_comp (m := 0) h0 ?_
      exact errsExtend_of_eq rfl rfl

theorem errsExtend_get_news (cfg : CrawlConfig) (world : World) (st : CrawlerState)
    (url : String) : ErrsExtend st (get_news_links cfg world st url).2 0 := by
  have h0 := errsExtend_get_soup cfg world st url
  unfold get_news_links
  cases h : (get_soup cfg world st url).1 <;> simpa [h] using h0

theorem errsExtend_get_pdf (cfg : CrawlConfig) (world : World) (st : CrawlerState)
    (url : String) : ErrsExtend st (get_pdf_links cfg world st url).2 0 := by
  have h0 := errsExtend_get_soup cfg world st url
  unfold get_pdf_links
  cases h : (get_soup cfg world st url).1 <;> simpa [h] using h0

theorem errsExtend_download_pdf (cfg : CrawlConfig) (world : World)
    (st : CrawlerState) (url : String) :
    ErrsExtend st (download_pdf cfg world st url).2 0 := by
  have h0 := errsExtend_mrwr cfg world st url
  unfold download_pdf
  cases h : (make_request_with_retry cfg world st url).1 with
  | none => simpa [h] using h0
  | some resp =>
      simp only [h]
      by_cases hz : (streamedContent resp.chunks).length = 0
      · simp only [hz, if_true]
        refine errsExtend_comp (m := 0) h0 ?_
        exact errsExtend_of_eq rfl rfl
      · simp only [hz, if_false]
        refine errsExtend_comp (m := 0) h0 ?_
        exact errsExtend_of_eq rfl rfl

theorem errsExtend_news_loop (cfg : CrawlConfig) (world : World) :
    ∀ (ps : List String) (st : CrawlerState),
      ErrsExtend st (news_loop cfg world ps st).2 0 := by
  intro ps
  induction ps with
  | nil =>
      intro st
      exact errsExtend_refl st
  | cons p pt ih =>
      intro st
      have h1 := errsExtend_get_news cfg world st p
      have h2 := ih (get_news_links cfg world st p).2
      simpa [news_loop] using errsExtend_comp h1 h2

theorem errsExtend_pdf_loop (cfg : CrawlConfig) (world : World) :
    ∀ (ns : List String) (st : CrawlerState),
      ErrsExtend st (pdf_loop cfg world ns st).2 0 := by
  intro ns
  induction ns with
  | nil =>
      intro st
      exact errsExtend_refl st
  | cons n nt ih =>
      intro st
      have h1 := errsExtend_get_pdf cfg world st n
      have h2 := ih (get_pdf_links cfg world st n).2
      simpa [pdf_loop] using errsExtend_comp h1 h2

theorem errsExtend_download_loop (cfg : CrawlConfig) (world : World) :
    ∀ (us : List String) (st : CrawlerState),
      ErrsExtend st (download_loop cfg world us st).2.2
        (download_loop cfg world us st).2.1 := by
  intro us
  induction us with
  | nil =>
      intro st
      exact errsExtend_refl st
  | cons u ut ih =>
      intro st
      have h1 := errsExtend_download_pdf cfg world st u
      by_cases hs : (download_pdf cfg world st u).1.success = true
      · have hbump : ErrsExtend st
            { (download_pdf cfg world st u).2 with
              stats := { (download_pdf cfg world st u).2.stats with
                pdfs_downloaded :=
                  (download_pdf cfg world st u).2.stats.pdfs_downloaded + 1 } } 1 := by
          refine errsExtend_comp (m := 1) h1 ⟨⟨[], by simp⟩, by simp⟩
        have h2 := ih { (download_pdf cfg world st u).2 with
              stats := { (download_pdf cfg world st u).2.stats with
                pdfs_downloaded :=
                  (download_pdf cfg world st u).2.stats.pdfs_downloaded + 1 } }
        have h3 := errsExtend_comp hbump h2
        simp only [download_loop, hs, if_true]
        simpa [Nat.add_comm] using h3
      · have h2 := ih (download_pdf cfg world st u).2
        have h3 := errsExtend_comp h1 h2
        simp only [download_loop, hs, if_false]
        simpa using h3

/-- The stats snapshot embedded in a `crawl_simple` result is the final
crawler stats of that run. -/
theorem crawl_simple_stats_eq (cfg : CrawlConfig) (world : World)
    (st : CrawlerState) :
    (crawl_simple cfg world st).1.stats = (crawl_simple cfg world st).2.stats := rfl

theorem errsExtend_crawl_simple (cfg : CrawlConfig) (world : World)
    (st : CrawlerState) :
    ErrsExtend st (crawl_simple cfg world st).2
      (crawl_simple cfg world st).1.pdfs_downloaded := by
  let S0 : CrawlerState :=
    { st with stats := { st.stats with start_time := some st.clock } }
  let P := get_pagination_links cfg world S0
  let N := news_loop cfg world P.1 P.2
  let S3 : CrawlerState :=
    { N.2 with stats := { N.2.stats with
        news_articles_found := (dedupList N.1).length } }
  let F := pdf_loop cfg world (dedupList N.1) S3
  let S5 : CrawlerState :=
    { F.2 with stats := { F.2.stats with pdfs_found := (dedupList F.1).length } }
  let D := download_loop cfg world (dedupList F.1) S5
  let S7 : CrawlerState :=
    { D.2.2 with stats := { D.2.2.stats with end_time := some D.2.2.clock } }
  have h0 : ErrsExtend st S0 0 := errsExtend_of_eq rfl rfl
  have h1 : ErrsExtend S0 P.2 0 := errsExtend_get_pagination cfg world S0
  have h2 : ErrsExtend P.2 N.2 0 := errsExtend_news_loop cfg world P.1 P.2
  have h3 : ErrsExtend N.2 S3 0 := errsExtend_of_eq rfl rfl
  have h4 : ErrsExtend S3 F.2 0 := errsExtend_pdf_loop cfg world (dedupList N.1) S3
  have h5 : ErrsExtend F.2 S5 0 := errsExtend_of_eq rfl rfl
  have h6 : ErrsExtend S5 D.2.2 D.2.1 :=
    errsExtend_download_loop cfg world (dedupList F.1) S5
  have h7 : ErrsExtend D.2.2 S7 0 := errsExtend_of_eq rfl rfl
  have hAll := errsExtend_comp (errsExtend_comp (errsExtend_comp (errsExtend_comp
    (errsExtend_comp (errsExtend_comp (errsExtend_comp h0 h1) h2) h3) h4) h5) h6) h7
  simpa using hAll

/-- C10.  The stats record belongs to the crawler instance, not to one run:
`crawl_simple` never resets it, so across two successive runs on the same
instance the error entries of the first run stay (as a prefix) in the
second run's embedded stats snapshot, and the snapshot's
`pdfs_downloaded` is the first run's accumulated counter plus the second
run's per-run download count. -/
theorem stats_accumulate_across_runs (cfg : CrawlConfig) (w1 w2 : World)
    (st0 : CrawlerState) :
    (∃ tl, (crawl_simple cfg w2 (crawl_simple cfg w1 st0).2).1.stats.errors =
        (crawl_simple cfg w1 st0).1.stats.errors ++ tl) ∧
    (crawl_simple cfg w2 (crawl_simple cfg w1 st0).2).1.stats.pdfs_downloaded =
      (crawl_simple cfg w1 st0).1.stats.pdfs_downloaded +
        (crawl_simple cfg w2 (crawl_simple cfg w1 st0).2).1.pdfs_downloaded := by
  obtain ⟨⟨tl, htl⟩, hd⟩ :=
    errsExtend_crawl_simple cfg w2 (crawl_simple cfg w1 st0).2
  rw [crawl_simple_stats_eq cfg w1 st0,
      crawl_simple_stats_eq cfg w2 (crawl_simple cfg w1 st0).2]
  exact ⟨⟨tl, htl⟩, hd⟩

/-! ### Claim theorems: full pipeline -/

/-- In the model no sub-operation of `crawl_simple` raises, so the run
always produces its `success:true` result. -/
theorem crawl_simple_success (cfg : CrawlConfig) (world : World)
    (st : CrawlerState) : (crawl_simple cfg world st).1.success = true := rfl

/-- C9 counterexample: `crawl_full_pipeline` run without a background-task
service (the parameter's default) on a site yielding one successful
download returns an empty `processing_tasks` list, not one entry per
successful download. -/
theorem full_pipeline_no_service_counterexample :
    ((crawl_full_pipeline {} demoWorld false "system" initCrawler).1.base.download_results.filter
        (fun d => d.success)).length = 1 ∧
    (crawl_full_pipeline {} demoWorld false "system"
        initCrawler).1.processing_tasks.length = 0 := by
  constructor <;> rfl

/-- C9 (amended).  When a background-task service is provided and the
underlying simple crawl succeeds, `processing_tasks` has exactly one entry
per successful download, and every entry's id is the deterministic function
`processing_task_id` of its source URL alone, so identical source URLs give
identical ids across runs. -/
theorem full_pipeline_tasks_with_service (cfg : CrawlConfig) (world : World)
    (uid : String) (st : CrawlerState)
    (_hs : (crawl_full_pipeline cfg world true uid st).1.base.success = true) :
    (crawl_full_pipeline cfg world true uid st).1.processing_tasks.length =
      ((crawl_full_pipeline cfg world true uid st).1.base.download_results.filter
          (fun d => d.success)).length ∧
    ∀ t ∈ (crawl_full_pipeline cfg world true uid st).1.processing_tasks,
      t.task_id = processing_task_id t.document_data.source_url := by
  constructor
  · simp [crawl_full_pipeline, crawl_simple_success]
  · intro t ht
    simp only [crawl_full_pipeline, crawl_simple_success] at ht
    simp only [Bool.true_eq_false, if_false, if_true, List.mem_map] at ht
    obtain ⟨d, hd, rfl⟩ := ht
    rfl

theorem full_pipeline_tasks_with_service_witness :
    (crawl_full_pipeline {} demoWorld true "system"
        initCrawler).1.processing_tasks.length =
      ((crawl_full_pipeline {} demoWorld true "system"
          initCrawler).1.base.download_results.filter
          (fun d => d.success)).length ∧
    ∀ t ∈ (crawl_full_pipeline {} demoWorld true "system"
        initCrawler).1.processing_tasks,
      t.task_id = processing_task_id t.document_data.source_url :=
  full_pipeline_tasks_with_service {} demoWorld "system" initCrawler rfl

/-! ### Claim theorems: background task service -/

theorem lookupA_insertA {α : Type} (m : List (String × α)) (k : String) (v : α) :
    lookupA (insertA m k v) k = some v := by
  have h1 : (List.filter (fun e => decide (e.1 ≠ k)) m).find?
      (fun e => decide (e.1 = k)) = none := by
    simp [List.find?_eq_none]
  simp [lookupA, insertA, List.find?_append, h1, List.find?]

theorem lookupA_mapUpdate {α : Type} (m : List (String × α)) (k : String)
    (f : α → α) :
    lookupA (m.map (fun e => if e.1 = k then (e.1, f e.2) else e)) k =
      (lookupA m k).map f := by
  induction m with
  | nil => rfl
  | cons e t ih =>
      by_cases h : e.1 = k
      · simp [lookupA, h, List.find?_cons_of_pos]
      · simpa [lookupA, h, List.find?_cons_of_neg] using ih

/-- C7.  `create_task` rejects (returns `None` and leaves the stores
untouched) exactly when the active count has reached `max_active_tasks`;
below the limit it returns the generated id and the task is inserted into
the active store, already started (`running`). -/
theorem admission_control (s : ServiceState) (t u x : String) :
    (s.max_active_tasks ≤ s.active_tasks.length →
      create_task s t u x = (none, s)) ∧
    (s.active_tasks.length < s.max_active_tasks →
      (create_task s t u x).1 = some (t ++ "_" ++ x.take 8) ∧
      lookupA (create_task s t u x).2.active_tasks (t ++ "_" ++ x.take 8) =
        some { task_id := t ++ "_" ++ x.take 8, task_type := t, user_id := u,
               status := .running, progress := 0, result := none, error := none,
               cancelRequested := false }) := by
  constructor
  · intro h
    simp [create_task, check_task_limits, h]
  · intro h
    have hlim : check_task_limits s = true := by
      simp [check_task_limits]
      omega
    refine ⟨by simp [create_task, hlim], ?_⟩
    simp only [create_task, hlim, Bool.true_eq_false, if_false, updateTask]
    rw [lookupA_mapUpdate _ _
          (fun r : TaskRec => { r with status := TaskStatus.running }),
        lookupA_insertA]
    rfl

theorem admission_control_witness :
    create_task fullService "crawl" "u1" "a1b2c3d4e5" = (none, fullService) ∧
    ((create_task emptyService "crawl" "u1" "a1b2c3d4e5").1 =
        some ("crawl" ++ "_" ++ ("a1b2c3d4e5".take 8)) ∧
      lookupA (create_task emptyService "crawl" "u1" "a1b2c3d4e5").2.active_tasks
          ("crawl" ++ "_" ++ ("a1b2c3d4e5".take 8)) =
        some { task_id := "crawl" ++ "_" ++ ("a1b2c3d4e5".take 8),
               task_type := "crawl", user_id := "u1", status := .running,
               progress := 0, result := none, error := none,
               cancelRequested := false }) :=
  ⟨(admission_control fullService "crawl" "u1" "a1b2c3d4e5").1 (by decide),
   (admission_control emptyService "crawl" "u1" "a1b2c3d4e5").2 (by decide)⟩

/-- C1 (the code's actual behaviour, contradicting the claim).  When the
wrapped work of a created task returns normally, the wrapper's `finally`
calls `_move_completed_task` while the status is still `running`, the
guarded move is a no-op, and only afterwards does the runner set the status
to `completed`: the finished task therefore remains in `active_tasks` and
never appears in `completed_tasks`. -/
theorem completed_task_stays_active :
    (lookupA (work_returns (create_task emptyService "crawl" "user1" "a1b2c3d4e5").2
        "crawl_a1b2c3d4" "done").active_tasks "crawl_a1b2c3d4").map
        (fun r => r.status) = some TaskStatus.completed ∧
    lookupA (work_returns (create_task emptyService "crawl" "user1" "a1b2c3d4e5").2
        "crawl_a1b2c3d4" "done").completed_tasks "crawl_a1b2c3d4" = none := by
  constructor <;> rfl

/-- C2.  From any reachable state of one task's status machine, a terminal
status (`completed`, `failed`, `cancelled`) is never changed by any further
event-loop step, and `cancel()` on a running task makes the status
`cancelled`. -/
theorem terminal_status_final (m m' : TaskM) (hr : Reachable m) (hs : Step m m') :
    (m.status.isTerminal = true → m'.status = m.status) ∧
    (m.status = .running → (stepCancel m).status = .cancelled) := by
  obtain ⟨h1, h2⟩ := taskInv_reachable hr
  constructor
  · intro ht
    cases hs with
    | cancel =>
        have hnp : ¬ (m.status = .pending ∨ m.status = .running) := by
          rintro (h | h) <;> rw [h] at ht <;> simp [TaskStatus.isTerminal] at ht
        simp [stepCancel, hnp]
    | workExits o h => rfl
    | runResume hloc henabled =>
        cases hst : m.status with
        | pending =>
            rw [hst] at ht
            simp [TaskStatus.isTerminal] at ht
        | running =>
            rw [hst] at ht
            simp [TaskStatus.isTerminal] at ht
        | completed =>
            exact absurd (h2 (Or.inl hst)) (by simp [hloc])
        | failed =>
            exact absurd (h2 (Or.inr hst)) (by simp [hloc])
        | cancelled =>
            have hrc := h1 hst hloc
            simp [resumeResult, hrc, hst]
  · intro hrun
    simp [stepCancel, hrun]

theorem terminal_status_final_witness :
    (initTask.status.isTerminal = true →
      (stepCancel initTask).status = initTask.status) ∧
    (initTask.status = .running → (stepCancel initTask).status = .cancelled) :=
  terminal_status_final initTask (stepCancel initTask) Reachable.init
    (Step.cancel initTask)

end Fukai
